import Mathlib

/-!
Shallow embedding of `src/models/backbone.py` (DePerceiver backbone module).

Tensors are tracked at the level the claims speak about: their shapes and
the structural flow of values (feature tensors, validity masks, parameter
gradient flags, state dictionaries).  Every definition below mirrors one
function or constructor of the source file; doc comments name the source
symbol and lines.
-/

/-- Shape of a 4-dimensional tensor `(batch, channels, height, width)`,
as produced and consumed by the backbone forward passes. -/
structure Tensor4 where
  b : Nat
  c : Nat
  h : Nat
  w : Nat
deriving DecidableEq, Repr

/-- Shape of a 3-dimensional boolean mask tensor `(batch, height, width)`,
the `mask` component of a `NestedTensor`. -/
structure Tensor3 where
  b : Nat
  h : Nat
  w : Nat
deriving DecidableEq, Repr

/-- Embedding of `util.misc.NestedTensor`: a dense tensor paired with an
optional boolean validity mask (`mask` may be `None` in the source). -/
structure NestedTensor where
  tensors : Tensor4
  mask : Option Tensor3
deriving DecidableEq, Repr

/-- Ceiling division on naturals; embeds Python `math.ceil(h / stride)`
for positive `stride` (exact for the integer sizes involved). -/
def ceilDiv (a b : Nat) : Nat := (a + b - 1) / b

/-- Embedding of `extract_image_patches` (`src/models/backbone.py` lines
143-156) at shape level.  Faithful to the source:

* `pad_row` is computed from the height `h` and `pad_col` from the width
  `w` (lines 148-149);
* the call `F.pad(x, (pad_row // 2, pad_row - pad_row // 2, pad_col // 2,
  pad_col - pad_col // 2))` (line 150) hands the first pair to `F.pad`,
  which pads the LAST dimension (the width), and the second pair to the
  height — so the padded height is `h + pad_col` and the padded width is
  `w + pad_row`, exactly as `torch.nn.functional.pad` behaves (negative
  entries crop);
* `Tensor.unfold(dim, kernel, stride)` (line 153) extracts contiguous
  (undilated) windows, giving `(size - kernel) / stride + 1` of them;
* the final `permute`/`view` (lines 154-156) yields channel count
  `kernel * kernel * c`.

`none` models the runtime errors torch raises when `stride` is zero
(Python `ZeroDivisionError`), `kernel` is zero, or a padded dimension is
smaller than the unfold window. -/
def extract_image_patches (x : Tensor4) (kernel stride dilation : Nat) : Option Tensor4 :=
  if stride = 0 ∨ kernel = 0 then none
  else
    let h2 := ceilDiv x.h stride
    let w2 := ceilDiv x.w stride
    let pad_row : Int := ((h2 : Int) - 1) * stride + ((kernel : Int) - 1) * dilation + 1 - x.h
    let pad_col : Int := ((w2 : Int) - 1) * stride + ((kernel : Int) - 1) * dilation + 1 - x.w
    let padded_h : Int := x.h + (pad_col.fdiv 2 + (pad_col - pad_col.fdiv 2))
    let padded_w : Int := x.w + (pad_row.fdiv 2 + (pad_row - pad_row.fdiv 2))
    if padded_h < (kernel : Int) ∨ padded_w < (kernel : Int) then none
    else
      let out_h := (padded_h - kernel).toNat / stride + 1
      let out_w := (padded_w - kernel).toNat / stride + 1
      some ⟨x.b, kernel * kernel * x.c, out_h, out_w⟩

/-- Embedding of `PatchBackbone.__init__` configuration
(`src/models/backbone.py` lines 159-165). -/
structure PatchBackbone where
  kernel : Nat
  stride : Nat
  dilation : Nat
deriving DecidableEq, Repr

/-- The `self.num_channels = (kernel ** 2) * 3` attribute set in
`PatchBackbone.__init__` (line 163). -/
def PatchBackbone.num_channels (pb : PatchBackbone) : Nat := pb.kernel ^ 2 * 3

/-- Embedding of `PatchBackbone.forward` (lines 167-170): runs
`extract_image_patches` on `tensor_list.tensors` and wraps the result with
the UNCHANGED input mask in a new `NestedTensor`. -/
def PatchBackbone.forward (pb : PatchBackbone) (tl : NestedTensor) : Option NestedTensor :=
  (extract_image_patches tl.tensors pb.kernel pb.stride pb.dilation).map
    (fun x => ⟨x, tl.mask⟩)

/-- Embedding of `NoBackbone.__init__`'s `self.num_channels = 3  #RGB`
(line 135). -/
def NoBackbone.num_channels : Nat := 3

/-- Embedding of `NoBackbone.forward` (lines 137-139): `self.backbone` is
`nn.Identity()`, which returns its argument unchanged, so the whole
`NestedTensor` is passed through. -/
def NoBackbone.forward (tl : NestedTensor) : NestedTensor := tl

/-- Shape-level embedding of line 84,
`F.interpolate(m[None].float(), size=x.shape[-2:]).to(torch.bool)[0]`:
interpolation resamples the mask to exactly the requested spatial size
`x.shape[-2:]`, keeping the leading (batch) dimension. -/
def interpolateMaskTo (m : Tensor3) (x : Tensor4) : Tensor3 := ⟨m.b, x.h, x.w⟩

/-- The loop body of `BackboneBase.forward` (lines 81-85): for each stage
`(name, x)` it reads `m = tensor_list.mask`, asserts `m is not None`
(modelled as an `Except.error`), resamples the mask to the feature map's
spatial size and pairs them in a `NestedTensor`, preserving stage order. -/
def backboneBaseLoop (mask : Option Tensor3) :
    List (String × Tensor4) → Except String (List (String × NestedTensor))
  | [] => .ok []
  | (name, x) :: rest =>
    match mask with
    | none => .error "assert m is not None"
    | some m =>
      match backboneBaseLoop mask rest with
      | .ok out => .ok ((name, ⟨x, some (interpolateMaskTo m x)⟩) :: out)
      | .error e => .error e

/-- Embedding of `BackboneBase.forward` (lines 78-86).  The wrapped
network `self.body` (an `IntermediateLayerGetter` over an external
torchvision model) is abstracted as a function `body` from the input
tensor to the ordered list of named stage outputs. -/
def BackboneBase.forward (body : Tensor4 → List (String × Tensor4)) (tl : NestedTensor) :
    Except String (List (String × NestedTensor)) :=
  backboneBaseLoop tl.mask (body tl.tensors)

/-- Boolean substring helper: `isPrefixChars n h` holds when `n` is an
initial segment of `h`; embeds the leading-segment test underlying Python's
`layer in name` containment. -/
def isPrefixChars : List Char → List Char → Bool
  | [], _ => true
  | _ :: _, [] => false
  | a :: as, b :: bs => a == b && isPrefixChars as bs

/-- Embeds Python's substring containment `needle in hay` over the
characters of `hay`. -/
def containsChars (needle : List Char) : List Char → Bool
  | [] => isPrefixChars needle []
  | c :: t => isPrefixChars needle (c :: t) || containsChars needle t

/-- Python `needle in hay` for strings (substring containment). -/
def strContains (hay needle : String) : Bool := containsChars needle.data hay.data

/-- The default `layers_used` set of `BackboneBase.__init__`
(line 67): `{'layer1', 'layer2', 'layer3', 'layer4'}`. -/
def defaultLayersUsed : List String := ["layer1", "layer2", "layer3", "layer4"]

/-- Embedding of the parameter-freezing loop of `BackboneBase.__init__`
(lines 66-70).  A parameter is `(name, requires_grad)`; the loop calls
`parameter.requires_grad_(False)` when `not train_backbone or not
any(layer in name for layer in layers_used)`, and otherwise leaves the
flag at its incoming value. -/
def backboneBaseFreeze (params : List (String × Bool)) (train_backbone : Bool)
    (layers_used : Option (List String)) : List (String × Bool) :=
  let layers := layers_used.getD defaultLayersUsed
  params.map fun p =>
    if !train_backbone || !(layers.any fun layer => strContains p.1 layer) then (p.1, false)
    else p

/-- State dictionaries (`collections.OrderedDict` mapping parameter/buffer
names to tensor payloads) are embedded as association lists with unique
keys; the payload type is abstract since only key bookkeeping matters to
`_load_from_state_dict`. -/
abbrev StateDict (V : Type) : Type := List (String × V)

/-- Python `state_dict[k]` lookup (first matching key). -/
def lookupKey {V : Type} : StateDict V → String → Option V
  | [], _ => none
  | (a, v) :: t, k => if a == k then some v else lookupKey t k

/-- Python `k in state_dict`. -/
def containsKey {V : Type} (sd : StateDict V) (k : String) : Bool := (lookupKey sd k).isSome

/-- Python `del state_dict[k]` (removes the unique entry with key `k`). -/
def eraseKey {V : Type} : StateDict V → String → StateDict V
  | [], _ => []
  | (a, v) :: t, k => if a == k then t else (a, v) :: eraseKey t k

/-- Boolean `s.startswith(pre)`. -/
def startsWithStr (s pre : String) : Bool := isPrefixChars pre.data s.data

/-- Characters of a name up to (excluding) the first dot; embeds
`input_name.split('.', 1)[0]` from `torch.nn.Module._load_from_state_dict`. -/
def takeUntilDot : List Char → List Char
  | [] => []
  | ch :: t => if ch = '.' then [] else ch :: takeUntilDot t

/-- The persistent buffers registered by `FrozenBatchNorm2d.__init__`
(lines 31-36), in registration order: `weight`, `bias`, `running_mean`,
`running_var`. -/
def frozenBNBufferNames : List String := ["weight", "bias", "running_mean", "running_var"]

/-- Embedding of the strict-mode bookkeeping of
`torch.nn.Module._load_from_state_dict` for a module whose local state is
exactly the four `FrozenBatchNorm2d` buffers and which has no submodules:
a buffer whose key `prefix + name` is absent from the state dict is
reported missing; under `strict`, every state-dict key that starts with
the load prefix and whose name head (up to the first dot) is not a local buffer
is reported unexpected.  The tensor copy itself always succeeds on the
abstract payloads, so `(missing, unexpected) = ([], [])` is a successful
restore. -/
def NNModule.load_from_state_dict {V : Type} (sd : StateDict V) (pre : String)
    (strict : Bool) : List String × List String :=
  let missing := frozenBNBufferNames.filter fun n => !(containsKey sd (pre ++ n))
  let unexpected :=
    if strict then
      (sd.map Prod.fst).filter fun k =>
        startsWithStr k pre &&
          !(frozenBNBufferNames.contains ⟨takeUntilDot (k.data.drop pre.data.length)⟩)
    else []
  (missing, unexpected)

/-- Embedding of `FrozenBatchNorm2d._load_from_state_dict` (lines 38-46):
it deletes `prefix + 'num_batches_tracked'` from the caller's state dict
when present, then delegates to the superclass loader.  Returns the state
dict as the caller now sees it (the deletion is in place in the source)
together with the `(missing, unexpected)` bookkeeping. -/
def FrozenBatchNorm2d.load_from_state_dict {V : Type} (sd : StateDict V) (pre : String)
    (strict : Bool) : StateDict V × List String × List String :=
  let key := pre ++ "num_batches_tracked"
  let sd' := if containsKey sd key then eraseKey sd key else sd
  (sd', NNModule.load_from_state_dict sd' pre strict)

/-- Configuration arguments consumed by `build_backbone` (lines 173-204).
`interm_layer` is the command-line string (e.g. `"2"`) or `none`. -/
structure Args where
  model : String
  backbone : String
  lr_backbone : Int
  masks : Bool
  dilation : Bool
  patch_kernel : Nat
  patch_stride : Nat
  patch_dilation : Nat
  interm_layer : Option String
deriving DecidableEq, Repr

/-- The channel table `[256, 512, 1024, 2048][int(layer)]` of
`IntermediateLayerGetterBackbone.__init__` (line 108). -/
def intermChannelTable : List Nat := [256, 512, 1024, 2048]

/-- Results of `build_backbone`: each constructor records the
configuration with which the corresponding module class is instantiated
(the heavy torchvision construction is external to this file). -/
inductive BuiltBackbone where
  | joiner (backbone : String) (train_backbone : Bool) (return_interm_layers : Bool)
      (dilation : Bool) (num_channels : Nat)
  | noBackbone (num_channels : Nat)
  | patch (pb : PatchBackbone)
  | intermLayerGetter (layer : String) (num_channels : Nat) (train_backbone : Bool)
      (layers_used : Option (List String))
deriving DecidableEq, Repr

/-- The ResNet channel-count rule of `Backbone.__init__` (line 99):
`512 if name in ('resnet18', 'resnet34') else 2048`. -/
def resnetNumChannels (name : String) : Nat :=
  if name = "resnet18" ∨ name = "resnet34" then 512 else 2048

/-- The `layers_used` set computed in the `resnet50` branch (line 198):
`{f'layer{i}' for i in range(1, int(args.interm_layer) + 2)}` when
`return_interm_layers`, else `None`. -/
def resnet50LayersUsed (interm : Nat) : List String :=
  (List.range (interm + 1)).map fun i => "layer" ++ toString (i + 1)

/-- Embedding of `build_backbone` (lines 173-204).  The `detr` branch and
the three recognized non-`detr` backbones return a constructed model; any
other backbone name falls through to
`raise NotImplementedError('Backbone {} not implemented'...)`, embedded
as `Except.error`, so no model value is produced. -/
def build_backbone (args : Args) : Except String BuiltBackbone :=
  if args.model = "detr" then
    .ok (.joiner args.backbone (args.lr_backbone > 0) args.masks args.dilation
      (resnetNumChannels args.backbone))
  else if args.backbone = "n/a" then
    .ok (.noBackbone 3)
  else if args.backbone = "patch" then
    .ok (.patch ⟨args.patch_kernel, args.patch_stride, args.patch_dilation⟩)
  else if args.backbone = "resnet50" then
    match args.interm_layer with
    | some layer =>
        .ok (.intermLayerGetter layer (intermChannelTable.getD (layer.toNat?.getD 0) 0)
          (args.lr_backbone > 0) (some (resnet50LayersUsed (layer.toNat?.getD 0))))
    | none =>
        .ok (.intermLayerGetter "0" (resnetNumChannels args.backbone)
          (args.lr_backbone > 0) none)
  else
    .error ("Backbone " ++ args.backbone ++ " not implemented")

/-- Boolean check that an output stage's mask exists and has exactly the
spatial shape of the stage's feature map. -/
def maskMatchesFeature (nt : NestedTensor) : Bool :=
  match nt.mask with
  | some mk => mk.h == nt.tensors.h && mk.w == nt.tensors.w
  | none => false

/-! ## Helper lemmas -/

/-- Appending a common front keeps string equality decided by the tails. -/
theorem strBeqAppendRight (p a b : String) : (p ++ a == p ++ b) = (a == b) := by
  cases h : a == b with
  | true =>
    have : a = b := eq_of_beq h
    subst this
    exact beq_self_eq_true _
  | false =>
    have hne : a ≠ b := ne_of_beq_false h
    refine beq_eq_false_iff_ne.mpr fun contra => hne ?_
    have hdata : (p ++ a).data = (p ++ b).data := congrArg String.data contra
    rw [String.data_append, String.data_append] at hdata
    exact String.ext (List.append_cancel_left hdata)

/-- A list of characters is a leading segment of itself followed by anything. -/
theorem isPrefixChars_append (l m : List Char) : isPrefixChars l (l ++ m) = true := by
  induction l with
  | nil => rfl
  | cons c t ih => simp [isPrefixChars, ih]

/-- Dropping the length of the front of an appended string leaves the tail. -/
theorem dropDataAppend (p s : String) : (p ++ s).data.drop p.data.length = s.data := by
  rw [String.data_append]
  exact List.drop_left _ _

/-- A string starts with its own front. -/
theorem startsWithStrAppend (p s : String) : startsWithStr (p ++ s) p = true := by
  unfold startsWithStr
  rw [String.data_append]
  exact isPrefixChars_append _ _

/-- The strict-mode unexpected-key test of `NNModule.load_from_state_dict`,
evaluated on a key of the form `p ++ s`, depends only on the suffix `s`. -/
theorem unexpectedCondAppend (p s : String) :
    (startsWithStr (p ++ s) p &&
      !(frozenBNBufferNames.contains ⟨takeUntilDot ((p ++ s).data.drop p.data.length)⟩)) =
    !(frozenBNBufferNames.contains ⟨takeUntilDot s.data⟩) := by
  rw [startsWithStrAppend, dropDataAppend, Bool.true_and]

/-- Every stage produced by the `BackboneBase.forward` loop carries a mask
of exactly the feature map's spatial shape. -/
theorem backboneBaseLoop_all_mask (mask : Option Tensor3) (xs : List (String × Tensor4))
    (out : List (String × NestedTensor)) (h : backboneBaseLoop mask xs = .ok out) :
    (out.all fun p => maskMatchesFeature p.2) = true := by
  induction xs generalizing out with
  | nil =>
    simp only [backboneBaseLoop] at h
    cases h
    rfl
  | cons hd rest ih =>
    obtain ⟨name, x⟩ := hd
    cases mask with
    | none => simp [backboneBaseLoop] at h
    | some m =>
      simp only [backboneBaseLoop] at h
      cases heq : backboneBaseLoop (some m) rest with
      | ok o =>
        rw [heq] at h
        cases h
        simp only [List.all_cons, Bool.and_eq_true]
        exact ⟨by simp [maskMatchesFeature, interpolateMaskTo], ih o heq⟩
      | error e => rw [heq] at h; cases h

/-- The channel and batch dimensions produced by `extract_image_patches`. -/
theorem extract_image_patches_channels (x : Tensor4) (k s d : Nat) (t : Tensor4)
    (h : extract_image_patches x k s d = some t) : t.c = k * k * x.c ∧ t.b = x.b := by
  simp only [extract_image_patches] at h
  split at h
  · cases h
  · split at h
    · cases h
    · cases h
      exact ⟨rfl, rfl⟩

/-- Lookup of a key that does not occur among an association list's keys
fails. -/
theorem lookupKey_eq_none_of_not_mem {V : Type} (sd : StateDict V) (k : String)
    (h : k ∉ List.map Prod.fst sd) : lookupKey sd k = none := by
  induction sd with
  | nil => rfl
  | cons hd t ih =>
    obtain ⟨a, v⟩ := hd
    simp only [List.map_cons, List.mem_cons, not_or] at h
    have hne : a ≠ k := fun heq => h.1 heq.symm
    simp only [lookupKey, beq_eq_false_iff_ne.mpr hne]
    exact ih h.2

/-- Erasing a key from a duplicate-free association list makes lookup of
that key fail. -/
theorem lookupKey_eraseKey_self {V : Type} (sd : StateDict V) (k : String)
    (h : (List.map Prod.fst sd).Nodup) : lookupKey (eraseKey sd k) k = none := by
  induction sd with
  | nil => rfl
  | cons hd t ih =>
    obtain ⟨a, v⟩ := hd
    simp only [List.map_cons, List.nodup_cons] at h
    by_cases hak : a = k
    · subst hak
      simp only [eraseKey, beq_self_eq_true, if_true]
      exact lookupKey_eq_none_of_not_mem t a h.1
    · simp only [eraseKey, beq_eq_false_iff_ne.mpr hak, Bool.false_eq_true, if_false,
        lookupKey]
      exact ih h.2

/-- Erasing one key from an association list leaves lookups of every other
key unchanged. -/
theorem lookupKey_eraseKey_ne {V : Type} (sd : StateDict V) (k k' : String) (h : k' ≠ k) :
    lookupKey (eraseKey sd k) k' = lookupKey sd k' := by
  induction sd with
  | nil => rfl
  | cons hd t ih =>
    obtain ⟨a, v⟩ := hd
    by_cases hak : a = k
    · subst hak
      simp only [eraseKey, beq_self_eq_true, if_true, lookupKey]
      rw [if_neg (by simpa using fun heq : a = k' => h heq.symm)]
    · simp only [eraseKey, beq_eq_false_iff_ne.mpr hak, if_false, lookupKey, ih]

/-! ## Claim theorems -/

/-- C1: the claim states that the patch backbone's output feature map has
spatial size `(ceil(h / stride), ceil(w / stride))` for every input and
every fixed kernel/stride/dilation, in particular for non-square inputs.
This theorem records the code's actual behaviour, which contradicts the
claim: for the non-square input of shape `(1, 1, 5, 2)` with kernel 1,
stride 2, dilation 1 the code produces the grid `(2, 1)` although
`(ceil(5/2), ceil(2/2)) = (3, 1)` (the source hands `pad_row` to the
width slots of `F.pad` and `pad_col` to the height slots); and for the
square input `(1, 1, 4, 4)` with kernel 3, stride 1, dilation 2 it
produces `(6, 6)` although `ceil(4/1) = 4` (`Tensor.unfold` extracts
undilated windows while the padding budgets for dilation).  The source's
own comment "Do TF 'SAME' Padding" documents the intended
`ceil(size / stride)` output grid, so this is a code bug, not a spec
error. -/
theorem extract_image_patches_spatial_size_diverges :
    extract_image_patches ⟨1, 1, 5, 2⟩ 1 2 1 = some ⟨1, 1, 2, 1⟩ ∧
    (ceilDiv 5 2, ceilDiv 2 2) = (3, 1) ∧
    extract_image_patches ⟨1, 1, 4, 4⟩ 3 1 2 = some ⟨1, 9, 6, 6⟩ ∧
    ceilDiv 4 1 = 4 := by
  decide

/-- C3: `PatchBackbone.forward` returns an output whose mask is exactly
the input's mask, unchanged, whenever the forward pass succeeds —
including when stride exceeds 1 and the feature map's spatial size
differs from the mask's. -/
theorem patch_backbone_forward_mask_unchanged (pb : PatchBackbone) (tl : NestedTensor)
    (out : NestedTensor) (h : PatchBackbone.forward pb tl = some out) : out.mask = tl.mask := by
  unfold PatchBackbone.forward at h
  rw [Option.map_eq_some'] at h
  obtain ⟨a, _, hf⟩ := h
  cases hf
  rfl

/-- Witness for C3 at kernel 1, stride 2 on a `(1, 3, 4, 4)` input whose
mask is `(1, 4, 4)` while the feature map shrinks to `(1, 3, 2, 2)`. -/
theorem patch_backbone_forward_mask_unchanged_witness :
    (⟨⟨1, 3, 2, 2⟩, some ⟨1, 4, 4⟩⟩ : NestedTensor).mask =
      (⟨⟨1, 3, 4, 4⟩, some ⟨1, 4, 4⟩⟩ : NestedTensor).mask :=
  patch_backbone_forward_mask_unchanged ⟨1, 2, 1⟩ ⟨⟨1, 3, 4, 4⟩, some ⟨1, 4, 4⟩⟩
    ⟨⟨1, 3, 2, 2⟩, some ⟨1, 4, 4⟩⟩ rfl

/-- C4 counterexample: for an input with `c = 1` channels and kernel 2 the
output feature map has `kernel^2 * c = 4` channels, but the module's
reported `num_channels` is `kernel^2 * 3 = 12` — the code hardcodes the
factor 3 (RGB) instead of the input channel count, so the claim that
`num_channels` equals `kernel^2` times the input channel count fails. -/
theorem patch_backbone_num_channels_counterexample :
    PatchBackbone.forward ⟨2, 1, 1⟩ ⟨⟨1, 1, 4, 4⟩, none⟩ = some ⟨⟨1, 4, 4, 4⟩, none⟩ ∧
    PatchBackbone.num_channels ⟨2, 1, 1⟩ = 12 ∧ 2 ^ 2 * 1 = 4 ∧ (12 : Nat) ≠ 4 := by
  decide

/-- C4 amended: for every input with `c` channels the patch backbone's
output feature map has exactly `kernel^2 * c` channels, while the channel
count the module reports is the constant `kernel^2 * 3`, which equals
`kernel^2` times the input channel count exactly for RGB (3-channel)
inputs. -/
theorem patch_backbone_channels_amended (pb : PatchBackbone) (tl : NestedTensor)
    (out : NestedTensor) (h : PatchBackbone.forward pb tl = some out) :
    out.tensors.c = pb.kernel * pb.kernel * tl.tensors.c ∧
    PatchBackbone.num_channels pb = pb.kernel ^ 2 * 3 := by
  refine ⟨?_, rfl⟩
  unfold PatchBackbone.forward at h
  rw [Option.map_eq_some'] at h
  obtain ⟨a, ha, hf⟩ := h
  cases hf
  exact (extract_image_patches_channels _ _ _ _ _ ha).1

/-- Witness for C4's amended theorem on a `(2, 3, 4, 4)` input with
kernel 3: the output carries `3 * 3 * 3 = 27` channels. -/
theorem patch_backbone_channels_amended_witness :
    (⟨⟨2, 27, 4, 4⟩, none⟩ : NestedTensor).tensors.c = 3 * 3 * 3 ∧
    PatchBackbone.num_channels ⟨3, 1, 1⟩ = 3 ^ 2 * 3 :=
  patch_backbone_channels_amended ⟨3, 1, 1⟩ ⟨⟨2, 3, 4, 4⟩, none⟩ ⟨⟨2, 27, 4, 4⟩, none⟩ rfl

/-- C5: the identity ("no backbone") variant returns its input unchanged
for every input, and the channel count it reports is the constant 3. -/
theorem no_backbone_identity_and_channels (tl : NestedTensor) :
    NoBackbone.forward tl = tl ∧ NoBackbone.num_channels = 3 :=
  ⟨rfl, rfl⟩

/-- C6: if the input's validity mask is `None` and the wrapped network
yields at least one output stage, `BackboneBase.forward` hits the
`assert m is not None` and fails instead of returning a result. -/
theorem backbone_base_forward_asserts_on_missing_mask
    (body : Tensor4 → List (String × Tensor4)) (tl : NestedTensor)
    (h1 : tl.mask = none) (h2 : body tl.tensors ≠ []) :
    BackboneBase.forward body tl = .error "assert m is not None" := by
  unfold BackboneBase.forward
  rw [h1]
  cases hxs : body tl.tensors with
  | nil => exact absurd hxs h2
  | cons hd rest =>
    obtain ⟨name, x⟩ := hd
    rfl

/-- Witness for C6: a one-stage body applied to a maskless input batch
produces the assertion failure. -/
theorem backbone_base_forward_asserts_on_missing_mask_witness :
    BackboneBase.forward (fun _ => [("0", ⟨1, 2, 3, 4⟩)]) ⟨⟨1, 3, 8, 8⟩, none⟩ =
      .error "assert m is not None" :=
  backbone_base_forward_asserts_on_missing_mask (fun _ => [("0", ⟨1, 2, 3, 4⟩)])
    ⟨⟨1, 3, 8, 8⟩, none⟩ rfl (by decide)

/-- C2: whenever the base feature-extraction wrapper's forward returns a
result, every returned stage pairs its feature map with a validity mask
of exactly that feature map's spatial shape (height and width). -/
theorem backbone_base_mask_matches_feature (body : Tensor4 → List (String × Tensor4))
    (tl : NestedTensor) (out : List (String × NestedTensor))
    (h : BackboneBase.forward body tl = .ok out) :
    (out.all fun p => maskMatchesFeature p.2) = true :=
  backboneBaseLoop_all_mask tl.mask (body tl.tensors) out h

/-- Witness for C2: a single-stage body with a `(2, 256, 7, 9)` feature
map on a `(2, 3, 28, 36)` input batch with a `(2, 28, 36)` mask. -/
theorem backbone_base_mask_matches_feature_witness :
    (([("0", (⟨⟨2, 256, 7, 9⟩, some ⟨2, 7, 9⟩⟩ : NestedTensor))].all
      fun p => maskMatchesFeature p.2) = true) :=
  backbone_base_mask_matches_feature (fun _ => [("0", ⟨2, 256, 7, 9⟩)])
    ⟨⟨2, 3, 28, 36⟩, some ⟨2, 28, 36⟩⟩ [("0", ⟨⟨2, 256, 7, 9⟩, some ⟨2, 7, 9⟩⟩)] rfl

/-- C7: when every wrapped parameter arrives with gradients enabled (the
framework default for a freshly constructed torchvision model), the
freezing loop of `BackboneBase.__init__` leaves parameter `name` with
`requires_grad = train_backbone && (some configured stage identifier is a
substring of name)`: with `train_backbone = false` every parameter is
gradient-disabled, and with `train_backbone = true` gradients stay
enabled exactly for parameters whose name contains one of the configured
stage identifiers (default `layer1`..`layer4`). -/
theorem backbone_base_freeze_grad_policy (params : List (String × Bool)) (tb : Bool)
    (lu : Option (List String)) (h : ∀ p ∈ params, p.2 = true) :
    backboneBaseFreeze params tb lu =
      params.map fun p =>
        (p.1, tb && ((lu.getD defaultLayersUsed).any fun layer => strContains p.1 layer)) := by
  unfold backboneBaseFreeze
  induction params with
  | nil => rfl
  | cons p ps ih =>
    obtain ⟨name, g⟩ := p
    have hg : g = true := h (name, g) (List.mem_cons_self _ _)
    subst hg
    simp only [List.map_cons]
    refine congrArg₂ List.cons ?_ (ih fun q hq => h q (List.mem_cons_of_mem _ hq))
    cases htb : tb with
    | false => rfl
    | true =>
      cases hany : ((lu.getD defaultLayersUsed).any fun layer => strContains name layer) with
      | false => simp [hany]
      | true => simp [hany]

/-- Witness for C7 with fine-tuning on and the default stage set: the
`layer1`-named parameter keeps gradients, the stem parameter loses them. -/
theorem backbone_base_freeze_grad_policy_witness :
    backboneBaseFreeze [("layer1.0.conv1.weight", true), ("conv1.weight", true)] true none =
      [("layer1.0.conv1.weight", true), ("conv1.weight", true)].map fun p =>
        (p.1, true && (((none : Option (List String)).getD defaultLayersUsed).any
          fun layer => strContains p.1 layer)) :=
  backbone_base_freeze_grad_policy [("layer1.0.conv1.weight", true), ("conv1.weight", true)]
    true none (by decide)

/-- C8: calling `build_backbone` with a non-`detr` model kind and a
backbone name outside the recognized set `n/a`, `patch`, `resnet50`
raises `NotImplementedError` (embedded as `Except.error`), so no
partially-constructed model value is produced. -/
theorem build_backbone_unknown_name_errors (args : Args) (h1 : args.model ≠ "detr")
    (h2 : args.backbone ≠ "n/a") (h3 : args.backbone ≠ "patch")
    (h4 : args.backbone ≠ "resnet50") :
    build_backbone args = .error ("Backbone " ++ args.backbone ++ " not implemented") := by
  unfold build_backbone
  rw [if_neg h1, if_neg h2, if_neg h3, if_neg h4]

/-- Witness for C8: a perceiver-kind configuration naming `resnet18`
(recognized only for the `detr` kind) is rejected. -/
theorem build_backbone_unknown_name_errors_witness :
    build_backbone ⟨"perceiver", "resnet18", 1, false, false, 3, 1, 1, none⟩ =
      .error ("Backbone " ++ "resnet18" ++ " not implemented") :=
  build_backbone_unknown_name_errors ⟨"perceiver", "resnet18", 1, false, false, 3, 1, 1, none⟩
    (by decide) (by decide) (by decide) (by decide)

/-- C9: restoring the frozen-normalization layer's state under strict
loading succeeds both when the legacy `num_batches_tracked` counter is
present in the saved state and when it is absent: in both cases the four
buffers are found (no missing keys) and, because the counter is deleted
before delegating to the superclass loader, it is never reported as an
unexpected key. -/
theorem frozen_bn_load_tolerates_tracking_counter {V : Type} (p : String) (w b rm rv t : V) :
    (FrozenBatchNorm2d.load_from_state_dict
        [(p ++ "weight", w), (p ++ "bias", b), (p ++ "running_mean", rm),
         (p ++ "running_var", rv), (p ++ "num_batches_tracked", t)] p true).2 = ([], []) ∧
    (FrozenBatchNorm2d.load_from_state_dict
        [(p ++ "weight", w), (p ++ "bias", b), (p ++ "running_mean", rm),
         (p ++ "running_var", rv)] p true).2 = ([], []) := by
  constructor <;>
    simp [FrozenBatchNorm2d.load_from_state_dict, NNModule.load_from_state_dict,
      containsKey, lookupKey, eraseKey, frozenBNBufferNames, strBeqAppendRight,
      unexpectedCondAppend, List.filter, takeUntilDot]

/-- C10: when the caller's state dictionary (with the unique keys of a
Python dict) contains `prefix + num_batches_tracked`, the frozen
normalization layer's loader deletes that entry in place: afterwards the
caller's dictionary no longer resolves that key, while lookups of every
other key are unchanged. -/
theorem frozen_bn_load_deletes_tracking_counter {V : Type} (sd : StateDict V) (p : String)
    (strict : Bool) (hnodup : (List.map Prod.fst sd).Nodup)
    (hmem : containsKey sd (p ++ "num_batches_tracked") = true) :
    lookupKey (FrozenBatchNorm2d.load_from_state_dict sd p strict).1
      (p ++ "num_batches_tracked") = none ∧
    ∀ k, k ≠ p ++ "num_batches_tracked" →
      lookupKey (FrozenBatchNorm2d.load_from_state_dict sd p strict).1 k = lookupKey sd k := by
  have hsd : (FrozenBatchNorm2d.load_from_state_dict sd p strict).1 =
      eraseKey sd (p ++ "num_batches_tracked") := by
    simp [FrozenBatchNorm2d.load_from_state_dict, hmem]
  rw [hsd]
  exact ⟨lookupKey_eraseKey_self sd _ hnodup,
    fun k hk => lookupKey_eraseKey_ne sd _ k hk⟩

/-- Witness for C10 on a concrete five-entry checkpoint with prefix
`bn.`: the tracked counter is gone and the `bn.weight` entry is intact. -/
theorem frozen_bn_load_deletes_tracking_counter_witness :
    lookupKey (FrozenBatchNorm2d.load_from_state_dict
      [("bn.weight", (1 : Nat)), ("bn.bias", 2), ("bn.running_mean", 3), ("bn.running_var", 4),
       ("bn.num_batches_tracked", 5)] "bn." true).1 ("bn." ++ "num_batches_tracked") = none ∧
    lookupKey (FrozenBatchNorm2d.load_from_state_dict
      [("bn.weight", (1 : Nat)), ("bn.bias", 2), ("bn.running_mean", 3), ("bn.running_var", 4),
       ("bn.num_batches_tracked", 5)] "bn." true).1 "bn.weight" =
      lookupKey [("bn.weight", (1 : Nat)), ("bn.bias", 2), ("bn.running_mean", 3),
       ("bn.running_var", 4), ("bn.num_batches_tracked", 5)] "bn.weight" :=
  ⟨(frozen_bn_load_deletes_tracking_counter _ "bn." true (by decide) (by decide)).1,
   (frozen_bn_load_deletes_tracking_counter _ "bn." true (by decide) (by decide)).2
     "bn.weight" (by decide)⟩
